import Mathlib

/-!
Shallow embedding of the access-control / security module of the repository
(`src/firebase/security.ts`): the login-attempt throttle, the input
validators, the admin/ownership resolver, and the two authentication flows.

The TypeScript module keeps a process-wide mutable
`Map<string, { count, lastAttempt }>`; we model it as an association list
threaded explicitly through each operation.  `Date.now()` becomes an explicit
`now : Nat` argument (milliseconds).  Calls into the external Firebase SDK
(`getDoc`, `signInWithEmailAndPassword`, `signOut`) become oracle parameters:
a `Db` record of document lookups (which may fail, modelling a thrown
exception, via `Except Unit`) and a `SignInResult` for the identity provider.
Functions that in TypeScript throw return an explicit result sum instead, and
outcome records carry instrumentation flags (`providerCalled`, `signedOut`,
`adminChecked`) recording which external effects the call performed.
-/

/-- One entry of the `loginAttempts` map: `{ count: number; lastAttempt: number }`. -/
structure Attempt where
  count : Nat
  lastAttempt : Nat
deriving DecidableEq

/-- The `loginAttempts` map, as an association list keyed by identifier. -/
abbrev LoginAttempts := List (String × Attempt)

/-- `loginAttempts.get(key)`. -/
def mapGet : LoginAttempts → String → Option Attempt
  | [], _ => none
  | (k, v) :: rest, key => if k = key then some v else mapGet rest key

/-- `loginAttempts.delete(key)`. -/
def mapDelete (st : LoginAttempts) (key : String) : LoginAttempts :=
  st.filter (fun p => decide (p.1 ≠ key))

/-- `loginAttempts.set(key, value)`. -/
def mapSet (st : LoginAttempts) (key : String) (v : Attempt) : LoginAttempts :=
  (key, v) :: mapDelete st key

/-- `const MAX_LOGIN_ATTEMPTS = 5`. -/
def MAX_LOGIN_ATTEMPTS : Nat := 5

/-- `const LOCKOUT_DURATION = 15 * 60 * 1000` (15 minutes in milliseconds). -/
def LOCKOUT_DURATION : Nat := 15 * 60 * 1000

/-- `isRateLimited(identifier)`.  Returns the boolean answer together with the
map after the call (the call purges a stale record as a side effect). -/
def isRateLimited (st : LoginAttempts) (identifier : String) (now : Nat) :
    Bool × LoginAttempts :=
  match mapGet st identifier with
  | none => (false, st)
  | some attempt =>
    if LOCKOUT_DURATION < now - attempt.lastAttempt then
      (false, mapDelete st identifier)
    else
      (decide (MAX_LOGIN_ATTEMPTS ≤ attempt.count), st)

/-- `recordLoginAttempt(identifier, success)`. -/
def recordLoginAttempt (st : LoginAttempts) (identifier : String) (success : Bool)
    (now : Nat) : LoginAttempts :=
  let attempt := (mapGet st identifier).getD ⟨0, now⟩
  if success then
    mapDelete st identifier
  else
    mapSet st identifier ⟨attempt.count + 1, now⟩

/-- A base-36 digit as produced by JavaScript `Number.prototype.toString(36)`:
`0`-`9` then `a`-`z`. -/
def digit36 (d : Nat) : Char :=
  if d < 10 then Char.ofNat (48 + d) else Char.ofNat (97 + (d - 10))

/-- Base-36 rendering of a natural number, most significant digit first.
Structural recursion on a fuel argument (the number itself bounds the digit
count) so that the function reduces definitionally. -/
def toBase36Core : Nat → Nat → List Char → List Char
  | 0, n, acc => digit36 (n % 36) :: acc
  | fuel + 1, n, acc =>
    if n < 36 then digit36 n :: acc
    else toBase36Core fuel (n / 36) (digit36 (n % 36) :: acc)

/-- `getClientIdentifier()`: `'client_' + Date.now().toString(36)`, with the
current time passed explicitly. -/
def getClientIdentifier (now : Nat) : String :=
  String.mk ("client_".data ++ toBase36Core now now [])

/-- The JavaScript regex character class `\s` (whitespace). -/
def isJsSpace (c : Char) : Bool :=
  c.toNat = 9 || c.toNat = 10 || c.toNat = 11 || c.toNat = 12 || c.toNat = 13 ||
  c.toNat = 32 || c.toNat = 160 || c.toNat = 5760 ||
  (8192 ≤ c.toNat && c.toNat ≤ 8202) || c.toNat = 8232 || c.toNat = 8233 ||
  c.toNat = 8239 || c.toNat = 8287 || c.toNat = 12288 || c.toNat = 65279

/-- A character admitted by the regex class `[^\s@]`. -/
def okChar (c : Char) : Bool :=
  !(isJsSpace c || c = '@')

/-- Acceptance of the email regex `^[^\s@]+@[^\s@]+\.[^\s@]+$`: the string
splits as `A ++ "@" ++ B ++ "." ++ C` with `A`, `B`, `C` nonempty strings of
`[^\s@]` characters (the `@` at some position `i ≥ 1`, the `.` at some
position `j` with `i + 2 ≤ j ≤ length - 2`, every other character in the
class).  Regex matching is exactly the existence of such a split. -/
def emailRegexAccepts (cs : List Char) : Bool :=
  (List.range cs.length).any fun i =>
    decide (1 ≤ i) && decide (cs.getD i ' ' = '@') &&
    ((List.range cs.length).any fun j =>
      decide (i + 2 ≤ j) && decide (j + 2 ≤ cs.length) &&
      decide (cs.getD j ' ' = '.') &&
      ((List.range cs.length).all fun k =>
        decide (k = i) || decide (k = j) || okChar (cs.getD k ' ')))

/-- `validateEmail(email)`: the regex test and `email.length <= 100`. -/
def validateEmail (email : String) : Bool :=
  emailRegexAccepts email.data && decide (email.length ≤ 100)

/-- `validatePassword(password)`: length in `[6, 128]`. -/
def validatePassword (password : String) : Bool :=
  decide (6 ≤ password.length) && decide (password.length ≤ 128)

/-- Exact character-list prefix test (used for substring search). -/
def charsLeadWith : List Char → List Char → Bool
  | [], _ => true
  | _ :: _, [] => false
  | a :: as, b :: bs => a = b && charsLeadWith as bs

/-- Substring occurrence over character lists. -/
def containsSub (sub : List Char) : List Char → Bool
  | [] => sub.isEmpty
  | c :: cs => charsLeadWith sub (c :: cs) || containsSub sub cs

/-- JavaScript `s.includes(sub)`. -/
def jsIncludes (s sub : String) : Bool :=
  containsSub sub.data s.data

/-- A Firestore document snapshot as the security module reads it:
whether the document exists and its `authorId` field (`none` when the field
is absent, so the comparison with a user id is false). -/
structure DocSnap where
  exists_ : Bool
  authorId : Option String
deriving DecidableEq

/-- The Firestore oracle: `getDoc(doc(db, collection, id))`, which either
returns a snapshot or throws (`Except.error`). -/
structure Db where
  getDoc : String → String → Except Unit DocSnap

/-- `isAdmin(uid)`: look the uid up in the `admins` collection; the document
existing means admin; a thrown lookup error is caught and yields `false`. -/
def isAdmin (db : Db) (uid : String) : Bool :=
  match db.getDoc "admins" uid with
  | .ok adminDoc => adminDoc.exists_
  | .error _ => false

/-- Outcome of `verifyResourceOwnership`: the boolean result plus an
instrumentation flag recording whether the `isAdmin` lookup was performed
(the short-circuit `||` skips it when the author matches). -/
structure OwnershipCheck where
  result : Bool
  adminChecked : Bool
deriving DecidableEq

/-- `verifyResourceOwnership(userId, resourceId, collection)`: fetch the
resource; a thrown lookup error is caught and yields `false`; an absent
document yields `false`; otherwise `data.authorId === userId || await
isAdmin(userId)`. -/
def verifyResourceOwnership (db : Db) (userId resourceId collection : String) :
    OwnershipCheck :=
  match db.getDoc collection resourceId with
  | .error _ => ⟨false, false⟩
  | .ok resourceDoc =>
    if resourceDoc.exists_ = false then ⟨false, false⟩
    else if resourceDoc.authorId = some userId then ⟨true, false⟩
    else ⟨isAdmin db userId, true⟩

/-- Outcome of awaiting `signInWithEmailAndPassword`: success with the user's
uid, or one of the error codes the module distinguishes. -/
inductive SignInResult where
  | success (uid : String)
  | userNotFound
  | wrongPassword
  | otherError
deriving DecidableEq

/-- Whether the sign-in attempt threw. -/
def SignInResult.isFailure : SignInResult → Bool
  | .success _ => false
  | _ => true

/-- The errors `authenticateUser` can throw (each a distinct user-facing
message in the source). -/
inductive AuthError where
  | rateLimited
  | invalidEmail
  | invalidPassword
  | invalidCredentials
  | loginFailed
deriving DecidableEq

/-- Result of `authenticateUser`: the returned uid or a thrown error. -/
inductive LoginResult where
  | threw (e : AuthError)
  | ok (uid : String)
deriving DecidableEq

/-- Full outcome of one `authenticateUser` call: result, the `loginAttempts`
map afterwards, and whether `signInWithEmailAndPassword` was invoked. -/
structure AuthOutcome where
  result : LoginResult
  attempts : LoginAttempts
  providerCalled : Bool
deriving DecidableEq

/-- `authenticateUser(email, password)`.  The call derives its identifier from
the current time, checks the throttle, validates inputs, then contacts the
identity provider; on success it records a successful attempt, on a thrown
provider error it records a failure and throws a generic message. -/
def authenticateUser (st : LoginAttempts) (now : Nat) (email password : String)
    (provider : SignInResult) : AuthOutcome :=
  let identifier := getClientIdentifier now
  let rl := isRateLimited st identifier now
  if rl.1 then ⟨.threw .rateLimited, rl.2, false⟩
  else if validateEmail email = false then ⟨.threw .invalidEmail, rl.2, false⟩
  else if validatePassword password = false then ⟨.threw .invalidPassword, rl.2, false⟩
  else
    match provider with
    | .success uid => ⟨.ok uid, recordLoginAttempt rl.2 identifier true now, true⟩
    | .userNotFound =>
      ⟨.threw .invalidCredentials, recordLoginAttempt rl.2 identifier false now, true⟩
    | .wrongPassword =>
      ⟨.threw .invalidCredentials, recordLoginAttempt rl.2 identifier false now, true⟩
    | .otherError =>
      ⟨.threw .loginFailed, recordLoginAttempt rl.2 identifier false now, true⟩

/-- The errors `authenticateAdmin` can throw: the rate-limit message, the
"not authorized" message, or the raw rethrown sign-in error. -/
inductive AdminError where
  | rateLimited
  | unauthorized
  | signInError (r : SignInResult)
deriving DecidableEq

/-- Result of `authenticateAdmin`: the returned boolean or a thrown error. -/
inductive AdminResult where
  | threw (e : AdminError)
  | ok (b : Bool)
deriving DecidableEq

/-- Full outcome of one `authenticateAdmin` call, with instrumentation for
whether the identity provider was contacted and whether `signOut` ran. -/
structure AdminOutcome where
  result : AdminResult
  attempts : LoginAttempts
  providerCalled : Bool
  signedOut : Bool
deriving DecidableEq

/-- `authenticateAdmin(email, password)`.  Throttle check first; then, inside
`try`, the marker pre-filter (`email.includes('admin') ||
email.includes('deepbug')`), sign-in, and the `isAdmin` check.  Every throw
from inside the `try` block passes through the `catch`, which records one
more failed attempt and rethrows — so the marker rejection and the
non-admin rejection each record two failed attempts. -/
def authenticateAdmin (db : Db) (st : LoginAttempts) (now : Nat)
    (email password : String) (provider : SignInResult) : AdminOutcome :=
  let identifier := getClientIdentifier now
  let rl := isRateLimited st identifier now
  if rl.1 then ⟨.threw .rateLimited, rl.2, false, false⟩
  else if (jsIncludes email "admin" || jsIncludes email "deepbug") = false then
    ⟨.threw .unauthorized,
      recordLoginAttempt (recordLoginAttempt rl.2 identifier false now)
        identifier false now,
      false, false⟩
  else
    match provider with
    | .success uid =>
      if isAdmin db uid then
        ⟨.ok true, recordLoginAttempt rl.2 identifier true now, true, false⟩
      else
        ⟨.threw .unauthorized,
          recordLoginAttempt (recordLoginAttempt rl.2 identifier false now)
            identifier false now,
          true, true⟩
    | r =>
      ⟨.threw (.signInError r), recordLoginAttempt rl.2 identifier false now, true, false⟩

/-- Concrete 101-character input whose shape is otherwise a valid email
(95 `a`s, then `@b.com`). -/
def longEmail : String :=
  String.mk (List.replicate 95 'a' ++ "@b.com".data)

/-- Fixture: a store whose every lookup throws. -/
def dbErr : Db := ⟨fun _ _ => .error ()⟩

/-- Fixture: a store whose every document is absent. -/
def dbAbsent : Db := ⟨fun _ _ => .ok ⟨false, none⟩⟩

/-- Fixture: a store where every `admins` lookup succeeds (every uid is an
admin) but every other document is absent. -/
def dbAdminOnly : Db :=
  ⟨fun c _ => if c = "admins" then .ok ⟨true, none⟩ else .ok ⟨false, none⟩⟩

/-- Fixture: a store with one resource `posts/r1` authored by `u1`, and no
admins. -/
def dbOwned : Db :=
  ⟨fun c i =>
    if c = "posts" ∧ i = "r1" then .ok ⟨true, some "u1"⟩ else .ok ⟨false, none⟩⟩

-- Helper lemmas about the association-list map.

theorem mapGet_mapSet_self (st : LoginAttempts) (key : String) (v : Attempt) :
    mapGet (mapSet st key v) key = some v := by
  simp [mapSet, mapGet]

theorem mapGet_mapDelete_self (st : LoginAttempts) (key : String) :
    mapGet (mapDelete st key) key = none := by
  induction st with
  | nil => rfl
  | cons p rest ih =>
    obtain ⟨k, v⟩ := p
    by_cases hk : k = key
    · simp [mapDelete, List.filter, hk] at ih ⊢
      exact ih
    · simp [mapDelete, List.filter, hk, mapGet] at ih ⊢
      exact ih

theorem mapDelete_of_mapGet_none (st : LoginAttempts) (key : String)
    (h : mapGet st key = none) : mapDelete st key = st := by
  induction st with
  | nil => rfl
  | cons p rest ih =>
    obtain ⟨k, v⟩ := p
    by_cases hk : k = key
    · simp [mapGet, hk] at h
    · simp [mapGet, hk] at h
      simp [mapDelete, List.filter, hk] at ih ⊢
      exact ih h

theorem mapGet_recordFail (st : LoginAttempts) (identifier : String) (now : Nat) :
    mapGet (recordLoginAttempt st identifier false now) identifier =
      some ⟨((mapGet st identifier).getD ⟨0, now⟩).count + 1, now⟩ := by
  simp [recordLoginAttempt, mapGet_mapSet_self]

/-- Claim C6: `recordLoginAttempt` with `success = true` deletes the record
for the identifier (full reset, so a subsequent `isRateLimited` check returns
false at any time); with `success = false` it creates the record if absent,
increments its count by one, and stamps `lastAttempt` with the current
time. -/
theorem C6_recordLoginAttempt_semantics (st : LoginAttempts) (identifier : String)
    (now t' : Nat) :
    recordLoginAttempt st identifier true now = mapDelete st identifier ∧
    mapGet (recordLoginAttempt st identifier true now) identifier = none ∧
    (isRateLimited (recordLoginAttempt st identifier true now) identifier t').1 = false ∧
    mapGet (recordLoginAttempt st identifier false now) identifier =
      some ⟨((mapGet st identifier).getD ⟨0, now⟩).count + 1, now⟩ := by
  refine ⟨rfl, ?_, ?_, mapGet_recordFail st identifier now⟩
  · simp [recordLoginAttempt, mapGet_mapDelete_self]
  · simp [isRateLimited, recordLoginAttempt, mapGet_mapDelete_self]

/-- Claim C5: for a record with `count ≥ MAX_LOGIN_ATTEMPTS`, once strictly
more than the 15-minute lockout window has elapsed past `lastAttempt`,
`isRateLimited` returns false and purges the stale record from the map. -/
theorem C5_stale_record_purged (st : LoginAttempts) (identifier : String)
    (a : Attempt) (now : Nat)
    (hget : mapGet st identifier = some a)
    (hcount : MAX_LOGIN_ATTEMPTS ≤ a.count)
    (helapsed : LOCKOUT_DURATION < now - a.lastAttempt) :
    isRateLimited st identifier now = (false, mapDelete st identifier) ∧
    mapGet (isRateLimited st identifier now).2 identifier = none := by
  have h1 : isRateLimited st identifier now = (false, mapDelete st identifier) := by
    simp [isRateLimited, hget, helapsed]
  exact ⟨h1, by rw [h1]; exact mapGet_mapDelete_self st identifier⟩

/-- Witness for C5: a record with count 5 stamped at time 0 is purged at time
1,000,000 ms (past the 900,000 ms window). -/
theorem C5_stale_record_purged_witness :
    isRateLimited [("x", ⟨5, 0⟩)] "x" 1000000 = (false, mapDelete [("x", ⟨5, 0⟩)] "x") ∧
    mapGet (isRateLimited [("x", ⟨5, 0⟩)] "x" 1000000).2 "x" = none :=
  C5_stale_record_purged [("x", ⟨5, 0⟩)] "x" ⟨5, 0⟩ 1000000 (by decide) (by decide)
    (by decide)

/-- Claim C4: starting from no record, five consecutive recorded failures
with the last one inside the 15-minute lockout window make `isRateLimited`
return true; after only four consecutive failures it returns false. -/
theorem C4_threshold (st0 : LoginAttempts) (identifier : String)
    (t1 t2 t3 t4 t5 now : Nat)
    (h0 : mapGet st0 identifier = none)
    (hwin : now - t5 ≤ LOCKOUT_DURATION) :
    (isRateLimited
        (recordLoginAttempt
          (recordLoginAttempt
            (recordLoginAttempt
              (recordLoginAttempt
                (recordLoginAttempt st0 identifier false t1)
                identifier false t2)
              identifier false t3)
            identifier false t4)
          identifier false t5)
        identifier now).1 = true ∧
    (isRateLimited
        (recordLoginAttempt
          (recordLoginAttempt
            (recordLoginAttempt
              (recordLoginAttempt st0 identifier false t1)
              identifier false t2)
            identifier false t3)
          identifier false t4)
        identifier now).1 = false := by
  have g1 : mapGet (recordLoginAttempt st0 identifier false t1) identifier =
      some ⟨1, t1⟩ := by
    rw [mapGet_recordFail, h0]; rfl
  have g2 : mapGet (recordLoginAttempt (recordLoginAttempt st0 identifier false t1)
      identifier false t2) identifier = some ⟨2, t2⟩ := by
    rw [mapGet_recordFail, g1]; rfl
  have g3 : mapGet (recordLoginAttempt (recordLoginAttempt
      (recordLoginAttempt st0 identifier false t1) identifier false t2)
      identifier false t3) identifier = some ⟨3, t3⟩ := by
    rw [mapGet_recordFail, g2]; rfl
  have g4 : mapGet (recordLoginAttempt (recordLoginAttempt (recordLoginAttempt
      (recordLoginAttempt st0 identifier false t1) identifier false t2)
      identifier false t3) identifier false t4) identifier = some ⟨4, t4⟩ := by
    rw [mapGet_recordFail, g3]; rfl
  have g5 : mapGet (recordLoginAttempt (recordLoginAttempt (recordLoginAttempt
      (recordLoginAttempt (recordLoginAttempt st0 identifier false t1)
      identifier false t2) identifier false t3) identifier false t4)
      identifier false t5) identifier = some ⟨5, t5⟩ := by
    rw [mapGet_recordFail, g4]; rfl
  constructor
  · simp [isRateLimited, g5, Nat.not_lt.mpr hwin, MAX_LOGIN_ATTEMPTS]
  · by_cases h : LOCKOUT_DURATION < now - t4
    · simp [isRateLimited, g4, h]
    · simp [isRateLimited, g4, h, MAX_LOGIN_ATTEMPTS]

/-- Witness for C4: all five failures and the check at time 0. -/
theorem C4_threshold_witness :
    (isRateLimited
        (recordLoginAttempt
          (recordLoginAttempt
            (recordLoginAttempt
              (recordLoginAttempt
                (recordLoginAttempt [] "x" false 0)
                "x" false 0)
              "x" false 0)
            "x" false 0)
          "x" false 0)
        "x" 0).1 = true ∧
    (isRateLimited
        (recordLoginAttempt
          (recordLoginAttempt
            (recordLoginAttempt
              (recordLoginAttempt [] "x" false 0)
              "x" false 0)
            "x" false 0)
          "x" false 0)
        "x" 0).1 = false :=
  C4_threshold [] "x" 0 0 0 0 0 0 (by decide) (by decide)

/-- Claim C9: `validateEmail` accepts `a@b.com`, rejects `not-an-email`, and
rejects every string longer than 100 characters. -/
theorem C9_validateEmail :
    validateEmail "a@b.com" = true ∧ validateEmail "not-an-email" = false ∧
    ∀ s : String, 100 < s.length → validateEmail s = false := by
  refine ⟨by decide, by decide, fun s h => ?_⟩
  have hl : decide (s.length ≤ 100) = false := decide_eq_false (by omega)
  rw [validateEmail, hl, Bool.and_false]

set_option maxRecDepth 40000 in
/-- Witness for C9: a 101-character input whose shape is otherwise a valid
email is rejected. -/
theorem C9_validateEmail_witness :
    100 < longEmail.length ∧ emailRegexAccepts longEmail.data = true ∧
    validateEmail longEmail = false :=
  ⟨by decide, by decide, C9_validateEmail.2.2 longEmail (by decide)⟩

/-- Claim C1: for an existing resource, `verifyResourceOwnership` returns
true iff the requesting user's id equals the resource's `authorId` field or
the user is an admin (`isAdmin`); in particular it is true for the author,
true for any admin, and false for a non-author non-admin. -/
theorem C1_ownership_iff (db : Db) (userId resourceId collection : String)
    (snap : DocSnap)
    (hres : db.getDoc collection resourceId = .ok snap)
    (hex : snap.exists_ = true) :
    ((verifyResourceOwnership db userId resourceId collection).result = true ↔
      (snap.authorId = some userId ∨ isAdmin db userId = true)) ∧
    (snap.authorId = some userId →
      (verifyResourceOwnership db userId resourceId collection).result = true) ∧
    (isAdmin db userId = true →
      (verifyResourceOwnership db userId resourceId collection).result = true) ∧
    (snap.authorId ≠ some userId → isAdmin db userId = false →
      (verifyResourceOwnership db userId resourceId collection).result = false) := by
  by_cases hA : snap.authorId = some userId
  · simp [verifyResourceOwnership, hres, hex, hA]
  · simp [verifyResourceOwnership, hres, hex, hA]

/-- Witness for C1: in a store with `posts/r1` authored by `u1` and no
admins, the author may mutate and a stranger may not. -/
theorem C1_ownership_iff_witness :
    (verifyResourceOwnership dbOwned "u1" "r1" "posts").result = true ∧
    (verifyResourceOwnership dbOwned "u9" "r1" "posts").result = false :=
  ⟨(C1_ownership_iff dbOwned "u1" "r1" "posts" ⟨true, some "u1"⟩ rfl rfl).2.1 rfl,
   (C1_ownership_iff dbOwned "u9" "r1" "posts" ⟨true, some "u1"⟩ rfl rfl).2.2.2
     (by decide) rfl⟩

/-- Claim C8: `isAdmin` and `verifyResourceOwnership` are total (they never
throw: every thrown store lookup is caught) and fail closed: a failing
`admins` lookup makes `isAdmin` false, a failing resource lookup makes
`verifyResourceOwnership` false, and an absent resource makes
`verifyResourceOwnership` false. -/
theorem C8_fail_closed (db : Db) (uid userId resourceId collection : String)
    (snap : DocSnap) :
    (db.getDoc "admins" uid = .error () → isAdmin db uid = false) ∧
    (db.getDoc collection resourceId = .error () →
      (verifyResourceOwnership db userId resourceId collection).result = false) ∧
    (db.getDoc collection resourceId = .ok snap → snap.exists_ = false →
      (verifyResourceOwnership db userId resourceId collection).result = false) := by
  refine ⟨fun h => ?_, fun h => ?_, fun h hex => ?_⟩
  · simp [isAdmin, h]
  · simp [verifyResourceOwnership, h]
  · simp [verifyResourceOwnership, h, hex]

/-- Witness for C8: a store that always throws yields false from both
checks, and a store with only absent documents yields false ownership. -/
theorem C8_fail_closed_witness :
    isAdmin dbErr "u1" = false ∧
    (verifyResourceOwnership dbErr "u1" "r1" "posts").result = false ∧
    (verifyResourceOwnership dbAbsent "u1" "r1" "posts").result = false :=
  ⟨(C8_fail_closed dbErr "u1" "u1" "r1" "posts" ⟨false, none⟩).1 rfl,
   (C8_fail_closed dbErr "u1" "u1" "r1" "posts" ⟨false, none⟩).2.1 rfl,
   (C8_fail_closed dbAbsent "u1" "u1" "r1" "posts" ⟨false, none⟩).2.2 rfl rfl⟩

/-- Claim C10: when the resource document does not exist,
`verifyResourceOwnership` returns false with the `isAdmin` lookup never
performed (`adminChecked = false`), so absence overrides privilege. -/
theorem C10_absent_resource (db : Db) (userId resourceId collection : String)
    (snap : DocSnap)
    (hres : db.getDoc collection resourceId = .ok snap)
    (hex : snap.exists_ = false) :
    verifyResourceOwnership db userId resourceId collection = ⟨false, false⟩ := by
  simp [verifyResourceOwnership, hres, hex]

/-- Witness for C10: in a store where every uid is an admin but the resource
is absent, the admin is still denied and the admin set is not consulted. -/
theorem C10_absent_resource_witness :
    isAdmin dbAdminOnly "u1" = true ∧
    verifyResourceOwnership dbAdminOnly "u1" "r1" "posts" = ⟨false, false⟩ :=
  ⟨rfl, C10_absent_resource dbAdminOnly "u1" "r1" "posts" ⟨false, none⟩ rfl rfl⟩

theorem mapDelete_cons_self (st : LoginAttempts) (key : String) (v : Attempt) :
    mapDelete ((key, v) :: st) key = mapDelete st key := by
  simp [mapDelete, List.filter]

/-- Counterexample to claim C3 as stated: a marker-less email supplied to
`authenticateAdmin` at time 0 from an empty attempt table is rejected, but
the attempt-record state is NOT unchanged — the branch records a failed
attempt and the surrounding catch records a second one, leaving a record
with count 2. -/
theorem C3_counterexample :
    (authenticateAdmin dbAbsent [] 0 "user@example.com" "password" .otherError).result
      = .threw .unauthorized ∧
    (authenticateAdmin dbAbsent [] 0 "user@example.com" "password" .otherError).attempts
      = [("client_0", ⟨2, 0⟩)] ∧
    (authenticateAdmin dbAbsent [] 0 "user@example.com" "password" .otherError).attempts
      ≠ ([] : LoginAttempts) := by
  refine ⟨by decide, by decide, by decide⟩

/-- Claim C3 (amended): when the email supplied to `authenticateAdmin` does
not contain an administrative marker substring, the call is rejected with
the Unauthorized error without contacting the identity provider, but it does
consume attempts: two failed attempts are recorded for the client
identifier, leaving (from no prior record) a record with count 2 stamped at
the current time. -/
theorem C3_marker_rejection_records_two (db : Db) (st : LoginAttempts)
    (now : Nat) (email password : String) (provider : SignInResult)
    (h0 : mapGet st (getClientIdentifier now) = none)
    (hmk : (jsIncludes email "admin" || jsIncludes email "deepbug") = false) :
    (authenticateAdmin db st now email password provider).result =
      .threw .unauthorized ∧
    (authenticateAdmin db st now email password provider).providerCalled = false ∧
    (authenticateAdmin db st now email password provider).attempts =
      (getClientIdentifier now, ⟨2, now⟩) :: st := by
  have hrl : isRateLimited st (getClientIdentifier now) now = (false, st) := by
    simp [isRateLimited, h0]
  have hdel : mapDelete st (getClientIdentifier now) = st :=
    mapDelete_of_mapGet_none st _ h0
  have hr1 : recordLoginAttempt st (getClientIdentifier now) false now =
      (getClientIdentifier now, ⟨1, now⟩) :: st := by
    simp [recordLoginAttempt, h0, mapSet, hdel]
  have hr2 : recordLoginAttempt ((getClientIdentifier now, ⟨1, now⟩) :: st)
      (getClientIdentifier now) false now =
      (getClientIdentifier now, ⟨2, now⟩) :: st := by
    simp [recordLoginAttempt, mapGet, mapSet, mapDelete_cons_self, hdel]
  simp [authenticateAdmin, hrl, hmk, hr1, hr2]

/-- Witness for the amended C3: concrete marker-less call. -/
theorem C3_marker_rejection_records_two_witness :
    (authenticateAdmin dbAbsent [] 0 "user@example.com" "secret9" .otherError).result =
      .threw .unauthorized ∧
    (authenticateAdmin dbAbsent [] 0 "user@example.com" "secret9" .otherError).providerCalled
      = false ∧
    (authenticateAdmin dbAbsent [] 0 "user@example.com" "secret9" .otherError).attempts =
      (getClientIdentifier 0, ⟨2, 0⟩) :: ([] : LoginAttempts) :=
  C3_marker_rejection_records_two dbAbsent [] 0 "user@example.com" "secret9"
    .otherError (by decide) (by decide)

/-- Claim C7: when a privileged-route login succeeds credential-wise but the
`isAdmin` lookup denies the uid, the session is revoked (`signOut` runs), the
Unauthorized error is thrown, and the failure is recorded in the throttle
(the code in fact records it twice — once in the branch and once in the
catch — leaving the identifier's record with count at least 2 stamped at the
current time). -/
theorem C7_nonadmin_revoked (db : Db) (st : LoginAttempts) (now : Nat)
    (email password uid : String)
    (hrl : (isRateLimited st (getClientIdentifier now) now).1 = false)
    (hmk : (jsIncludes email "admin" || jsIncludes email "deepbug") = true)
    (hadm : isAdmin db uid = false) :
    (authenticateAdmin db st now email password (.success uid)).result =
      .threw .unauthorized ∧
    (authenticateAdmin db st now email password (.success uid)).signedOut = true ∧
    (authenticateAdmin db st now email password (.success uid)).attempts =
      recordLoginAttempt
        (recordLoginAttempt (isRateLimited st (getClientIdentifier now) now).2
          (getClientIdentifier now) false now)
        (getClientIdentifier now) false now ∧
    (∃ a : Attempt,
      mapGet (authenticateAdmin db st now email password (.success uid)).attempts
        (getClientIdentifier now) = some a ∧ a.lastAttempt = now ∧ 2 ≤ a.count) := by
  have hstate : authenticateAdmin db st now email password (.success uid) =
      ⟨.threw .unauthorized,
        recordLoginAttempt
          (recordLoginAttempt (isRateLimited st (getClientIdentifier now) now).2
            (getClientIdentifier now) false now)
          (getClientIdentifier now) false now,
        true, true⟩ := by
    simp [authenticateAdmin, hrl, hmk, hadm]
  refine ⟨by rw [hstate], by rw [hstate], by rw [hstate], ?_⟩
  rw [hstate]
  simp only [mapGet_recordFail]
  exact ⟨_, rfl, rfl, by simp [mapGet_recordFail]⟩

/-- Witness for C7: admin-marked email, successful sign-in, uid not in the
admin set. -/
theorem C7_nonadmin_revoked_witness :
    (authenticateAdmin dbAbsent [] 0 "admin@x.co" "secret" (.success "u1")).result =
      .threw .unauthorized ∧
    (authenticateAdmin dbAbsent [] 0 "admin@x.co" "secret" (.success "u1")).signedOut
      = true :=
  ⟨(C7_nonadmin_revoked dbAbsent [] 0 "admin@x.co" "secret" "u1" (by decide)
      (by decide) rfl).1,
   (C7_nonadmin_revoked dbAbsent [] 0 "admin@x.co" "secret" "u1" (by decide)
      (by decide) rfl).2.1⟩

/-- Helper: a failed sign-in attempt on an identifier with no record leaves
exactly one recorded failure stamped at the call time. -/
theorem authUser_fail_fresh (st : LoginAttempts) (t : Nat) (e p : String)
    (f : SignInResult)
    (h0 : mapGet st (getClientIdentifier t) = none)
    (he : validateEmail e = true) (hp : validatePassword p = true)
    (hf : f.isFailure = true) :
    mapGet (authenticateUser st t e p f).attempts (getClientIdentifier t) =
      some ⟨1, t⟩ := by
  have hrl : isRateLimited st (getClientIdentifier t) t = (false, st) := by
    simp [isRateLimited, h0]
  cases f with
  | success uid => simp [SignInResult.isFailure] at hf
  | userNotFound => simp [authenticateUser, hrl, he, hp, mapGet_recordFail, h0]
  | wrongPassword => simp [authenticateUser, hrl, he, hp, mapGet_recordFail, h0]
  | otherError => simp [authenticateUser, hrl, he, hp, mapGet_recordFail, h0]

/-- Helper: a failed sign-in attempt on an identifier holding a
below-threshold record inside the lockout window increments the count and
restamps the record. -/
theorem authUser_fail_step (st : LoginAttempts) (t : Nat) (e p : String)
    (f : SignInResult) (c l : Nat)
    (h : mapGet st (getClientIdentifier t) = some ⟨c, l⟩)
    (hc : c < MAX_LOGIN_ATTEMPTS)
    (hl : ¬ LOCKOUT_DURATION < t - l)
    (he : validateEmail e = true) (hp : validatePassword p = true)
    (hf : f.isFailure = true) :
    mapGet (authenticateUser st t e p f).attempts (getClientIdentifier t) =
      some ⟨c + 1, t⟩ := by
  have hnc : ¬ MAX_LOGIN_ATTEMPTS ≤ c := by omega
  have hrl : isRateLimited st (getClientIdentifier t) t = (false, st) := by
    simp [isRateLimited, h, hl, hnc]
  cases f with
  | success uid => simp [SignInResult.isFailure] at hf
  | userNotFound => simp [authenticateUser, hrl, he, hp, mapGet_recordFail, h]
  | wrongPassword => simp [authenticateUser, hrl, he, hp, mapGet_recordFail, h]
  | otherError => simp [authenticateUser, hrl, he, hp, mapGet_recordFail, h]

/-- Helper: a call on an identifier holding a record at the attempt cap
inside the lockout window throws the rate-limit error without contacting the
identity provider. -/
theorem authUser_blocked (st : LoginAttempts) (t : Nat) (e p : String)
    (f : SignInResult) (c l : Nat)
    (h : mapGet st (getClientIdentifier t) = some ⟨c, l⟩)
    (hc : MAX_LOGIN_ATTEMPTS ≤ c)
    (hl : ¬ LOCKOUT_DURATION < t - l) :
    (authenticateUser st t e p f).result = .threw .rateLimited ∧
    (authenticateUser st t e p f).providerCalled = false := by
  have hrl : isRateLimited st (getClientIdentifier t) t = (true, st) := by
    simp [isRateLimited, h, hl, hc]
  simp [authenticateUser, hrl]

/-- Claim C2: five failed `authenticateUser` calls under the same client
identifier within one minute, then a sixth call under the same identifier:
the sixth throws the rate-limit error and never invokes
`signInWithEmailAndPassword`. -/
theorem C2_sixth_attempt_rate_limited
    (st : LoginAttempts) (e p : String) (t1 t2 t3 t4 t5 t6 : Nat)
    (f1 f2 f3 f4 f5 f6 : SignInResult)
    (hid1 : getClientIdentifier t1 = getClientIdentifier t6)
    (hid2 : getClientIdentifier t2 = getClientIdentifier t6)
    (hid3 : getClientIdentifier t3 = getClientIdentifier t6)
    (hid4 : getClientIdentifier t4 = getClientIdentifier t6)
    (hid5 : getClientIdentifier t5 = getClientIdentifier t6)
    (h0 : mapGet st (getClientIdentifier t6) = none)
    (he : validateEmail e = true) (hp : validatePassword p = true)
    (hf1 : f1.isFailure = true) (hf2 : f2.isFailure = true)
    (hf3 : f3.isFailure = true) (hf4 : f4.isFailure = true)
    (hf5 : f5.isFailure = true)
    (ht12 : t1 ≤ t2) (ht23 : t2 ≤ t3) (ht34 : t3 ≤ t4) (ht45 : t4 ≤ t5)
    (ht56 : t5 ≤ t6) (hwin : t6 - t1 ≤ 60000) :
    (authenticateUser
        (authenticateUser
          (authenticateUser
            (authenticateUser
              (authenticateUser
                (authenticateUser st t1 e p f1).attempts
                t2 e p f2).attempts
              t3 e p f3).attempts
            t4 e p f4).attempts
          t5 e p f5).attempts
        t6 e p f6).result = .threw .rateLimited ∧
    (authenticateUser
        (authenticateUser
          (authenticateUser
            (authenticateUser
              (authenticateUser
                (authenticateUser st t1 e p f1).attempts
                t2 e p f2).attempts
              t3 e p f3).attempts
            t4 e p f4).attempts
          t5 e p f5).attempts
        t6 e p f6).providerCalled = false := by
  have hLD : LOCKOUT_DURATION = 900000 := rfl
  have m1 : mapGet (authenticateUser st t1 e p f1).attempts
      (getClientIdentifier t6) = some ⟨1, t1⟩ := by
    rw [← hid1]
    exact authUser_fail_fresh st t1 e p f1 (by rw [hid1]; exact h0) he hp hf1
  have m2 : mapGet (authenticateUser (authenticateUser st t1 e p f1).attempts
      t2 e p f2).attempts (getClientIdentifier t6) = some ⟨2, t2⟩ := by
    rw [← hid2]
    exact authUser_fail_step _ t2 e p f2 1 t1 (by rw [hid2]; exact m1)
      (by decide) (by omega) he hp hf2
  have m3 : mapGet (authenticateUser (authenticateUser
      (authenticateUser st t1 e p f1).attempts t2 e p f2).attempts
      t3 e p f3).attempts (getClientIdentifier t6) = some ⟨3, t3⟩ := by
    rw [← hid3]
    exact authUser_fail_step _ t3 e p f3 2 t2 (by rw [hid3]; exact m2)
      (by decide) (by omega) he hp hf3
  have m4 : mapGet (authenticateUser (authenticateUser (authenticateUser
      (authenticateUser st t1 e p f1).attempts t2 e p f2).attempts
      t3 e p f3).attempts t4 e p f4).attempts (getClientIdentifier t6) =
      some ⟨4, t4⟩ := by
    rw [← hid4]
    exact authUser_fail_step _ t4 e p f4 3 t3 (by rw [hid4]; exact m3)
      (by decide) (by omega) he hp hf4
  have m5 : mapGet (authenticateUser (authenticateUser (authenticateUser
      (authenticateUser (authenticateUser st t1 e p f1).attempts
      t2 e p f2).attempts t3 e p f3).attempts t4 e p f4).attempts
      t5 e p f5).attempts (getClientIdentifier t6) = some ⟨5, t5⟩ := by
    rw [← hid5]
    exact authUser_fail_step _ t5 e p f5 4 t4 (by rw [hid5]; exact m4)
      (by decide) (by omega) he hp hf5
  exact authUser_blocked _ t6 e p f6 5 t5 m5 (by decide) (by omega)

/-- Witness for C2: six calls at time 0 (hence literally the same client
identifier), valid email and password, provider rejecting each of the first
five. -/
theorem C2_sixth_attempt_rate_limited_witness :
    (authenticateUser
        (authenticateUser
          (authenticateUser
            (authenticateUser
              (authenticateUser
                (authenticateUser [] 0 "a@b.com" "secret" .wrongPassword).attempts
                0 "a@b.com" "secret" .wrongPassword).attempts
              0 "a@b.com" "secret" .wrongPassword).attempts
            0 "a@b.com" "secret" .wrongPassword).attempts
          0 "a@b.com" "secret" .wrongPassword).attempts
        0 "a@b.com" "secret" .wrongPassword).result = .threw .rateLimited ∧
    (authenticateUser
        (authenticateUser
          (authenticateUser
            (authenticateUser
              (authenticateUser
                (authenticateUser [] 0 "a@b.com" "secret" .wrongPassword).attempts
                0 "a@b.com" "secret" .wrongPassword).attempts
              0 "a@b.com" "secret" .wrongPassword).attempts
            0 "a@b.com" "secret" .wrongPassword).attempts
          0 "a@b.com" "secret" .wrongPassword).attempts
        0 "a@b.com" "secret" .wrongPassword).providerCalled = false :=
  C2_sixth_attempt_rate_limited [] "a@b.com" "secret" 0 0 0 0 0 0
    .wrongPassword .wrongPassword .wrongPassword .wrongPassword .wrongPassword
    .wrongPassword rfl rfl rfl rfl rfl rfl (by decide) (by decide)
    rfl rfl rfl rfl rfl (by decide) (by decide) (by decide) (by decide)
    (by decide) (by decide)
